import Mathlib

/-!
Verification development for the multi-tenant WhatsApp chat gateway
(`deploy-backend-agentes`).  The Python source is shallowly embedded:
dynamic dict-shaped payloads become structures of `Option`-typed fields
(restricted to the field names the code actually reads), HTTP calls to the
external provider become explicit response parameters, and the database
session becomes explicit state passing.  String operations are implemented
over `List Char` so that every definition evaluates by `decide`/`rfl`.
-/

/-! ## Generic string helpers (over `List Char`) -/

/-- `"".join(ch for ch in s if ch.isdigit())` — keep only digit characters. -/
def digitsOnly (s : String) : String :=
  String.mk (s.toList.filter Char.isDigit)

/-- Case-lowering, char by char (models Python `str.lower`). -/
def strLower (s : String) : String :=
  String.mk (s.toList.map Char.toLower)

/-- Python `str.strip()`: drop whitespace from both ends. -/
def strTrim (s : String) : String :=
  String.mk
    (((s.toList.dropWhile Char.isWhitespace).reverse.dropWhile Char.isWhitespace).reverse)

/-- Does `needle` occur as a contiguous substring of `hay`?  (Python `in`.) -/
def charsContain (hay needle : List Char) : Bool :=
  match hay with
  | [] => needle.isEmpty
  | _ :: t => needle.isPrefixOf hay || charsContain t needle

def strContains (hay needle : String) : Bool :=
  charsContain hay.toList needle.toList

/-- Python truthy-`or` on strings: first operand when non-empty, else second. -/
def orS (a b : String) : String :=
  if a = "" then b else a

/-- First non-empty string among the listed optional fields (a Python
`a or b or c or ""` chain, where absent/empty are both falsy). -/
def firstNonempty (xs : List (Option String)) : String :=
  match xs with
  | [] => ""
  | x :: t =>
    match x with
    | some s => if s = "" then firstNonempty t else s
    | none => firstNonempty t

/-- Python truthy-`or` chain over optional numbers (`0`/absent are falsy). -/
def firstTruthyNat (xs : List (Option Nat)) (dflt : Nat) : Nat :=
  match xs with
  | [] => dflt
  | x :: t =>
    match x with
    | some n => if n = 0 then firstTruthyNat t dflt else n
    | none => firstTruthyNat t dflt

/-- Split a char list on every character satisfying `p` (runs of separators
produce empty pieces, which callers filter out — models `re.split`). -/
def splitOnPred (p : Char → Bool) : List Char → List (List Char)
  | [] => [[]]
  | c :: t =>
    let r := splitOnPred p t
    if p c then [] :: r
    else
      match r with
      | [] => [[c]]
      | h :: rt => (c :: h) :: rt

/-- Python `s.split(sep, 1)`: the part before the first `sep` character and
the part after it (if the separator occurs). -/
def splitFirstChar (sep : Char) : List Char → Option (List Char × List Char)
  | [] => none
  | c :: t =>
    if c = sep then some ([], t)
    else
      match splitFirstChar sep t with
      | some (a, b) => some (c :: a, b)
      | none => none

/-- `", ".join(xs)` style joining. -/
def joinSep (sep : String) : List String → String
  | [] => ""
  | [x] => x
  | x :: t => x ++ sep ++ joinSep sep t

/-- Python `str.isdigit()` on a whole string (non-empty, all digits). -/
def strIsDigits (s : String) : Bool :=
  !s.toList.isEmpty && s.toList.all Char.isDigit

/-- `int(s)` for a plain digit string. -/
def strToNat (s : String) : Nat :=
  s.toNat?.getD 0

/-- Python `str.startswith`, via char lists (kernel-reducible). -/
def strStartsWith (s pre : String) : Bool :=
  pre.toList.isPrefixOf s.toList

/-! ## JID / number utilities — `src/routers/channels.py` lines 63-105 -/

/-- `_canonical_msisdn_ar`: `549... -> 54...` (drop the mobile `9`),
anything else is left as its digits. -/
def canonicalMsisdnAr (s : String) : String :=
  let d := digitsOnly s
  if strStartsWith d ("549") && 5 ≤ d.toList.length then ("54") ++ String.mk (d.toList.drop 3) else d

/-- `_canonical_jid`: canonical `number@s.whatsapp.net` identifier. -/
def canonicalJid (jidOrNum : String) : String :=
  let num :=
    if strContains jidOrNum ("@s.whatsapp.net") then
      String.mk (jidOrNum.toList.takeWhile (fun c => c ≠ '@'))
    else digitsOnly jidOrNum
  canonicalMsisdnAr num ++ ("@s.whatsapp.net")

/-- `_number_from_jid`: the part before the first `@`. -/
def numberFromJid (jid : String) : String :=
  String.mk (jid.toList.takeWhile (fun c => c ≠ '@'))

/-- `_brand_id_from_instance`: accepts `brand_1`, `brand-1`, `1`. -/
def brandIdFromInstance (s : Option String) : Option Nat :=
  match s with
  | none => none
  | some s =>
    if strIsDigits s then some (strToNat s)
    else
      match splitFirstChar '_' s.toList with
      | some (_, after) =>
        if strIsDigits (String.mk after) then some (strToNat (String.mk after)) else none
      | none =>
        match splitFirstChar '-' s.toList with
        | some (_, after) =>
          if strIsDigits (String.mk after) then some (strToNat (String.mk after)) else none
        | none => none

/-! ## Webhook payload message model

One candidate message object of a webhook delivery, restricted to the
fields read by `channels.wa_webhook`, `channels._extract_text` and
`wa_admin._extract_incoming_evolution`.  Nested dicts (`key`, `id`,
`message`) are flattened into option fields; the top-level `body` field is
modelled as the plain-text variant (when `body` is a dict the code reads
the same keys as `message`, a shape not exercised by the claims). -/

structure InnerMsg where
  conversation : Option String := none
  extendedText : Option String := none  -- `extendedTextMessage.text`
  caption : Option String := none
  imageCaption : Option String := none  -- `imageMessage.caption`
  videoCaption : Option String := none  -- `videoMessage.caption`
  documentCaption : Option String := none
deriving Repr, DecidableEq

structure WMsg where
  keyFromMe : Option Bool := none       -- `key.fromMe`
  keyRemoteJid : Option String := none  -- `key.remoteJid`
  remoteJid : Option String := none
  jid : Option String := none
  chatId : Option String := none
  idRemote : Option String := none      -- `id.remote` (wa_admin variant)
  fromMeTop : Option Bool := none       -- top-level `fromMe` (wa_admin variant)
  number : Option String := none
  conversation : Option String := none  -- top-level `conversation`
  message : Option InnerMsg := none
  text : Option String := none
  body : Option String := none          -- top-level `body` as plain text
  messageTimestamp : Option Nat := none
  timestamp : Option Nat := none
deriving Repr, DecidableEq

/-- `channels._extract_text` (lines 157-176).  The inspected wrapper is
`msg.message or msg.body or msg` itself; a truthy string `body` makes the
Python code call `.get` on a `str`, raising `AttributeError` — modelled as
`none` (the surrounding `try/except` of the caller then skips the message). -/
def extractText (m : WMsg) : Option String :=
  match m.message with
  | some inner =>
    some (firstNonempty [inner.conversation, inner.extendedText, inner.caption, m.text, m.body])
  | none =>
    match m.body with
    | some b =>
      if b = "" then some (firstNonempty [m.conversation, m.text])
      else none
    | none => some (firstNonempty [m.conversation, m.text])

/-- A `WAMessage` row as persisted by the webhook (`db.WAMessage`). -/
structure SavedMsg where
  brandId : Nat
  jid : String
  fromMe : Bool
  text : String
  ts : Nat
deriving Repr, DecidableEq

/-- Per-candidate-message processing inside the save loop of `wa_webhook`
(`channels.py` lines 570-613): returns the persisted row, or `none` when
the candidate is skipped (`continue` / the inbound-only guard / a raised
extraction error caught by the surrounding `try`). -/
def processMsg (brandIdFinal : Nat) (now : Nat) (m : WMsg) : Option SavedMsg :=
  let fromMe := m.keyFromMe.getD false
  let remoteJid0 := firstNonempty [m.keyRemoteJid, m.remoteJid, m.jid]
  match extractText m with
  | none => none
  | some text =>
    let remoteJid :=
      if remoteJid0 = "" then
        let num := digitsOnly (m.number.getD (""))
        if num = "" then "" else num ++ ("@s.whatsapp.net")
      else remoteJid0
    if remoteJid = "" then none
    else
      let jidNorm := canonicalJid remoteJid
      let ts := firstTruthyNat [m.messageTimestamp, m.timestamp] now
      if fromMe = false ∧ text ≠ "" then
        some { brandId := brandIdFinal, jid := jidNorm, fromMe := false, text := text, ts := ts }
      else none

/-- One element of `raw_events`: either an Evolution envelope
(`{event, data:{messages:[...]}}`) or a raw Baileys-style message dict. -/
inductive WaEvent where
  | wrapped (instName : Option String) (msgs : List WMsg)
  | raw (m : WMsg)
deriving Repr, DecidableEq

/-- `iter_messages` (lines 537-551), for the payload shapes above. -/
def iterMessages : WaEvent → List WMsg
  | .wrapped _ msgs => msgs
  | .raw m => [m]

inductive Method where
  | GET
  | POST
deriving Repr, DecidableEq

/-- Response of `wa_webhook`: `err s` is a raised `HTTPException(s)`,
`ping` the GET liveness answer, `processed l` the POST answer after
persisting exactly the rows in `l`. -/
inductive WebhookResp where
  | err (status : Nat)
  | ping
  | processed (saved : List SavedMsg)
deriving Repr, DecidableEq

/-- The rows persisted by a webhook request (its state change). -/
def savedOf : WebhookResp → List SavedMsg
  | .processed l => l
  | _ => []

/-- `channels.wa_webhook` (lines 498-617).  `webhookToken` is the resolved
`EVOLUTION_WEBHOOK_TOKEN or "evolution"` value; `payloadInstName` stands
for `payload.get("instanceName") or payload.get("instance") or
payload.get("body",{}).get("instanceName")`; `now` is `int(time.time())`
at processing time. -/
def waWebhook (webhookToken : String) (method : Method) (token : String)
    (instQ : Option String) (brandIdQs : Option Nat) (payloadInstName : Option String)
    (events : List WaEvent) (now : Nat) : WebhookResp :=
  if token ≠ webhookToken then .err 403
  else if method = .GET then .ping
  else
    let brandId :=
      match brandIdQs with
      | some b => some b
      | none =>
        match brandIdFromInstance instQ with
        | some b => some b
        | none => brandIdFromInstance payloadInstName
    let brandIdFinal := brandId.getD 0
    .processed ((events.flatMap iterMessages).filterMap (processMsg brandIdFinal now))

/-! ## `wa_admin._extract_incoming_evolution` — `src/routers/wa_admin.py` lines 179-231

The `data.messages` list branch; the single-body branch (lines 208-229)
applies the identical per-message logic to the lone body dict. -/

/-- One candidate of `_extract_incoming_evolution`: the `{jid, text}` entry
appended to `out`, or `none` when the candidate is dropped (empty text,
outbound `fromMe` flag, or empty jid). -/
def extractOneIncoming (m : WMsg) : Option (String × String) :=
  let jid0 := firstNonempty [m.chatId, m.remoteJid, m.keyRemoteJid, m.idRemote]
  let jid :=
    if strContains jid0 ("@s.whatsapp.net") then jid0
    else digitsOnly jid0 ++ ("@s.whatsapp.net")
  let inner := m.message.getD {}
  let text := strTrim (firstNonempty
    [m.text, m.body, inner.conversation, inner.extendedText,
     inner.imageCaption, inner.videoCaption, inner.documentCaption])
  let fromMe := m.fromMeTop.getD false || m.keyFromMe.getD false
  if text ≠ "" ∧ fromMe = false ∧ jid ≠ "" then some (jid, text) else none

/-- `_extract_incoming_evolution` over a `data.messages` list.  Every
returned entry later receives the auto-ACK outbound send (lines 263-282),
so this list also enumerates the outbound sends of the webhook. -/
def extractIncomingEvolution (msgs : List WMsg) : List (String × String) :=
  msgs.filterMap extractOneIncoming

/-! ## Provider adapter — `src/wa_evolution.py` -/

/-- One HTTP result as the adapter sees it (`{"http_status": .., "body": ..}`,
the body kept as an opaque token). -/
structure EvoResp where
  status : Nat
  body : String
deriving Repr, DecidableEq

/-- `_ok`: `200 <= status < 400`. -/
def okS (s : Nat) : Bool :=
  200 ≤ s && s < 400

/-- Header-variant loop of `EvolutionClient._request` (lines 53-69):
`results` are the responses obtained with each header set in `_hdr_sets()`
order; a non-401/403 response is returned at once, otherwise the next
header set is tried and the final `last` is returned. -/
def hdrLoop : List EvoResp → EvoResp → EvoResp
  | [], last => last
  | r :: rs, _ => if r.status ≠ 401 ∧ r.status ≠ 403 then r else hdrLoop rs r

def evoRequest (results : List EvoResp) : EvoResp :=
  hdrLoop results { status := 599, body := ("request_failed") }

/-- Ordered endpoint probing with `last`-tracking, shared by
`create_instance` / `set_webhook`: try each path in order, return the
first acceptable response, else fall through remembering the attempt. -/
def probeLast (provider : String → EvoResp) : List String → EvoResp → EvoResp
  | [], last => last
  | p :: ps, _ =>
    let r := provider p
    if okS r.status then r else probeLast provider ps r

/-- Candidate paths of `EvolutionClient.set_webhook` (lines 142-155). -/
def setWebhookPaths (inst : String) : List String :=
  [("/instance/webhook/set"), ("/instance/setWebhook/") ++ inst, ("/instance/setWebhook")]

/-- `EvolutionClient.set_webhook`: probes the candidates, returning the
first `_ok` response, else the last attempted one (initial `last` is
`(599, "no_attempts")`). -/
def setWebhook (provider : String → EvoResp) (inst : String) : EvoResp :=
  probeLast provider (setWebhookPaths inst) { status := 599, body := ("no_attempts") }

/-- Candidate paths of `EvolutionClient.list_chats` (lines 189-203), in
attempt order (the distinct query-parameter shapes ride on distinct paths). -/
def listChatsPaths (inst : String) : List String :=
  [("/messages/chats"),
   ("/messages/") ++ inst ++ ("/chats"),
   ("/chat/list"),
   ("/chat/list/") ++ inst,
   ("/chats/list"),
   ("/chats/") ++ inst,
   ("/chats"),
   ("/chat/all")]

/-- `EvolutionClient.list_chats`: first `_ok` response wins; when every
candidate fails the function returns the fixed
`500, {"status":500,"error":"No endpoint matched"}` result. -/
def listChats (provider : String → EvoResp) (inst : String) : EvoResp :=
  match (listChatsPaths inst).map provider |>.find? (fun r => okS r.status) with
  | some r => r
  | none => { status := 500, body := ("No endpoint matched") }

/-- Responses of the provider calls made by `ensure_started`, abstracted
per sub-step (each sub-step is itself a probing call; only its final
result matters here). -/
structure ProviderBehavior where
  instanceExists : Bool      -- `instance_exists` (exceptions fold into `false`)
  createResult : EvoResp     -- `create_instance`
  webhookResult : EvoResp    -- `set_webhook`
  connectResult : EvoResp    -- `connect_instance`
deriving Repr, DecidableEq

/-- Result of `EvolutionClient.ensure_started` (lines 221-246):
`error = none` is the `{"http_status":200, "body":{"ok":true}}` success;
`webhookDetail` records the webhook sub-step outcome when it was
attempted (`detail["webhook"]`). -/
structure StartResult where
  httpStatus : Nat
  error : Option String
  webhookDetail : Option EvoResp
deriving Repr, DecidableEq

/-- `EvolutionClient.ensure_started`: create only when the instance is
absent (failed create returns at once), then best-effort webhook
registration (failures only logged), then connect (failed connect returns
failure). -/
def ensureStarted (p : ProviderBehavior) (webhookUrl : Option String) : StartResult :=
  if ¬ p.instanceExists ∧ ¬ okS p.createResult.status then
    { httpStatus := p.createResult.status, error := some ("create_failed"), webhookDetail := none }
  else
    let wd := if webhookUrl.isSome then some p.webhookResult else none
    if ¬ okS p.connectResult.status then
      { httpStatus := p.connectResult.status, error := some ("connect_failed"), webhookDetail := wd }
    else
      { httpStatus := 200, error := none, webhookDetail := wd }

/-! ## Admin command interpreter — `src/agents/mc.py` -/

/-- An unnormalized decimal number `num / 10^scale`, as parsed from a
`set temp=<0..1>` command (models the `float(v)` of plain decimal
numerals; exotic float syntax is rejected like a `ValueError`). -/
structure DecNum where
  num : Nat
  scale : Nat
deriving Repr, DecidableEq

/-- Parse a plain decimal numeral (`"0.3"`, `"1"`, `".5"`, `"1."`). -/
def parseDec (s : String) : Option DecNum :=
  match splitFirstChar '.' s.toList with
  | none => if strIsDigits s then some { num := strToNat s, scale := 0 } else none
  | some (a, b) =>
    if (a.all Char.isDigit && b.all Char.isDigit) && !(a.isEmpty && b.isEmpty) then
      some { num := strToNat (String.mk a) * 10 ^ b.length + strToNat (String.mk b),
             scale := b.length }
    else none

/-- `_parse_kv` (lines 25-32): split on the first `=`, else the first `:`,
else the whole (trimmed) segment with empty value. -/
def parseKv (seg : String) : String × String :=
  match splitFirstChar '=' seg.toList with
  | some (k, v) => (strTrim (String.mk k), strTrim (String.mk v))
  | none =>
    match splitFirstChar ':' seg.toList with
    | some (k, v) => (strTrim (String.mk k), strTrim (String.mk v))
    | none => (strTrim seg, "")

/-- Case-insensitive prefix test (the `re.IGNORECASE` keyword match). -/
def ciPrefixOf (kw s : List Char) : Bool :=
  (kw.map Char.toLower).isPrefixOf (s.map Char.toLower)

/-- The `re.search(re.escape(keyword) + r"\s+(\S+)\s*(.*)$", text,
IGNORECASE|DOTALL)` of line 46: find the first position where the keyword
(case-insensitively) is followed by at least one whitespace and one
non-whitespace character; capture that token as the password and the
trimmed remainder as the command batch (`group(2).strip()` of line 50). -/
def reAdminSearch (kw : List Char) : List Char → Option (String × String)
  | [] => none
  | s@(_ :: t) =>
    if ciPrefixOf kw s then
      let after := s.drop kw.length
      let pwd := (after.dropWhile Char.isWhitespace).takeWhile (fun c => !c.isWhitespace)
      if after.takeWhile Char.isWhitespace ≠ [] ∧ pwd ≠ [] then
        some (String.mk pwd,
              strTrim (String.mk ((after.dropWhile Char.isWhitespace).drop pwd.length)))
      else reAdminSearch kw t
    else reAdminSearch kw t

/-- `_is_allowed_number` (lines 16-23).  `allowParsed` stands for the
decoded `super_allow_list_json` (absent / JSON-parse failure both yield
`[]` in the source and are collapsed upstream). -/
def isAllowedNumber (superNums : List String) (sender : String)
    (allowParsed : List String) : Bool :=
  let num := String.mk (sender.toList.takeWhile (fun c => c ≠ '@'))
  let white := (allowParsed.filter (fun n => n ≠ "")).map strTrim ++ superNums
  white.isEmpty || white.contains num

/-- The password verification of lines 52-58: the stored digest, when
present (truthy), is checked via `verify_password`; **only otherwise**
does the `WA_SUPERADMIN_PASSWORD` plaintext fallback apply (`elif`).
`verify` abstracts `common.pwhash.verify_password` (a collaborator). -/
def passwordGate (verify : String → String → Bool)
    (storedHash superPass pwd : String) : Bool :=
  if storedHash ≠ "" then verify pwd storedHash
  else if superPass ≠ "" then pwd == superPass
  else false

/-- The `WAConfig` row of a tenant (`db.py` lines 95-109), with
`super_allow_list_json` carried in decoded form. -/
structure WACfg where
  agentMode : String := ("ventas")
  modelName : Option String := none
  temperature : DecNum := { num := 2, scale := 1 }
  rulesMd : Option String := none
  rulesJson : Option String := none
  superEnabled : Bool := true
  superKeyword : Option String := some ("#admin")
  superAllowList : Option (List String) := none
  superPasswordHash : Option String := none
deriving Repr, DecidableEq

/-- A `BrandDataSource` row (`db.py` lines 111-119). -/
structure DS where
  id : Nat
  brandId : Nat
  name : String
  kind : String
  url : String
  enabled : Bool := true
  readOnly : Bool := true
deriving Repr, DecidableEq

/-- Environment of `agents/mc.py` (lines 8-10) plus the password-hash
collaborator. -/
structure AdminEnv where
  superPass : String           -- WA_SUPERADMIN_PASSWORD
  superNums : List String      -- WA_SUPERADMIN_NUMBERS, split and stripped
  superKey : String            -- WA_SUPERADMIN_KEYWORD (getenv default "#admin")
  verify : String → String → Bool

/-- Mutable state threaded through the command batch: the config object,
the datasource table (with its next autoincrement id), and the
accumulated `changed` / `out` lists. -/
structure AdminState where
  cfg : WACfg
  dss : List DS
  nextId : Nat
  changed : List String
  outLines : List String

def helpText : String :=
  ("**Comandos:**\n- `set agent=ventas|reservas|auto`\n- `set model=<openai-model>`\n- `set temp=<0..1>`\n- `rulemd=<markdown...>`\n- `rulejson=<json...>`\n- `cfg show`\n- `ds add name=<n> kind=postgres|http url=<...>`\n- `ds del id=<id>`")

/-- Rendering of `cfg show` (the `json.dumps` of five fields at line 118; the
exact JSON layout is abstracted into a deterministic line format — no
claim depends on the formatting). -/
def cfgShowText (cfg : WACfg) : String :=
  ("**Config actual:**\n")
    ++ ("agent_mode=") ++ cfg.agentMode
    ++ (" model_name=") ++ cfg.modelName.getD ("null")
    ++ (" temperature=") ++ Nat.repr cfg.temperature.num ++ ("e-") ++ Nat.repr cfg.temperature.scale
    ++ (" super_enabled=") ++ (if cfg.superEnabled then ("true") else ("false"))
    ++ (" super_keyword=") ++ cfg.superKeyword.getD ("null")

/-- `cmd.split(" ")` with empty pieces dropped and entries stripped
(`[p.strip() for p in cmd.split(" ") if p.strip()]`). -/
def splitWords (cmd : String) : List String :=
  (((splitOnPred (fun c => c = ' ') cmd.toList).map (fun l => strTrim (String.mk l))).filter
    (fun p => p ≠ ""))

/-- `dict(pairs).get(k, d)`: last binding of `k` wins. -/
def kvLookup (pairs : List (String × String)) (k d : String) : String :=
  match pairs.reverse.find? (fun p => p.1 = k) with
  | some p => p.2
  | none => d

/-- One iteration of the command loop (lines 67-160). -/
def execCmd (brandId : Nat) (st : AdminState) (cmd : String) : AdminState :=
  let low := strLower cmd
  if low = ("help") ∨ low = ("ayuda") ∨ low = ("?") then
    { st with outLines := st.outLines ++ [helpText] }
  else if strStartsWith low ("set ") then
    match splitFirstChar ' ' cmd.toList with
    | some (_, restkv) =>
      let kv := parseKv (String.mk restkv)
      if kv.1 = ("agent") ∧ (kv.2 = ("ventas") ∨ kv.2 = ("reservas") ∨ kv.2 = ("auto")) then
        { st with cfg := { st.cfg with agentMode := kv.2 },
                  changed := st.changed ++ [("agent_mode")] }
      else if kv.1 = ("model") then
        { st with cfg := { st.cfg with modelName := if kv.2 = "" then none else some kv.2 },
                  changed := st.changed ++ [("model_name")] }
      else if kv.1 = ("temp") then
        match parseDec kv.2 with
        | some t =>
          if t.num ≤ 10 ^ t.scale then
            { st with cfg := { st.cfg with temperature := t },
                      changed := st.changed ++ [("temperature")] }
          else st
        | none => st  -- float() raised; `except: pass`
      else { st with outLines := st.outLines ++ [("⚠️ set ") ++ kv.1 ++ (" no reconocido.")] }
    | none => st  -- unreachable: `low` starts with "set ", so a space exists
  else if strStartsWith low ("rulemd") then
    let kv := parseKv cmd
    { st with cfg := { st.cfg with rulesMd := some (orS kv.2 ("")) },
              changed := st.changed ++ [("rules_md")] }
  else if strStartsWith low ("rulejson") then
    -- `json.loads(v)` is attempted, but both branches store `v` verbatim
    let kv := parseKv cmd
    { st with cfg := { st.cfg with rulesJson := some kv.2 },
              changed := st.changed ++ [("rules_json")] }
  else if low = ("cfg show") then
    { st with outLines := st.outLines ++ [cfgShowText st.cfg] }
  else if strStartsWith low ("ds add") then
    let kvs := ((splitWords cmd).drop 2).map parseKv
    let name := strTrim (kvLookup kvs ("name") (""))
    let kind := strTrim (kvLookup kvs ("kind") ("postgres"))
    let url := strTrim (kvLookup kvs ("url") (""))
    if name = "" ∨ url = "" ∨ ¬(kind = ("postgres") ∨ kind = ("http")) then
      { st with outLines := st.outLines ++ [("⚠️ ds add: faltan campos (name, kind, url)")] }
    else
      { st with
          dss := st.dss ++ [{ id := st.nextId, brandId := brandId,
                              name := name, kind := kind, url := url }],
          nextId := st.nextId + 1,
          outLines := st.outLines
            ++ [("✅ DS agregado: ") ++ Nat.repr st.nextId ++ (" ") ++ name
                  ++ (" (") ++ kind ++ (")")] }
  else if strStartsWith low ("ds del") then
    let kvs := ((splitWords cmd).drop 2).map parseKv
    let did := strToNat (kvLookup kvs ("id") ("0"))
    if did = 0 then
      { st with outLines := st.outLines ++ [("⚠️ ds del: `id` inválido")] }
    else
      match st.dss.find? (fun d => d.id = did) with
      | some d =>
        if d.brandId = brandId then
          { st with dss := st.dss.filter (fun x => x.id ≠ did),
                    outLines := st.outLines ++ [("🗑️ DS eliminado: ") ++ Nat.repr did] }
        else
          { st with outLines := st.outLines ++ [("⚠️ DS no encontrado o de otra marca")] }
      | none =>
        { st with outLines := st.outLines ++ [("⚠️ DS no encontrado o de otra marca")] }
  else
    { st with outLines := st.outLines ++ [("🤷 Comando no entendido: `") ++ cmd ++ ("` (usá `help`)")] }

/-- Result of `try_admin_command`: the `(handled, reply)` pair of the
source plus the resulting tenant state (config row, datasource table). -/
structure AdminResult where
  handled : Bool
  reply : String
  cfg : WACfg
  dss : List DS
deriving Repr, DecidableEq

/-- `try_admin_command` (lines 34-172).  The `WAConfig` row is taken as
always present (the `not (cfg and ...)` guard collapses to the
`super_enabled` flag); `nextId` models the datasource autoincrement. -/
def tryAdminCommand (env : AdminEnv) (brandId : Nat) (cfg : WACfg) (dss : List DS)
    (nextId : Nat) (sender text : String) : AdminResult :=
  if text = "" then { handled := false, reply := "", cfg := cfg, dss := dss }
  else if ¬ cfg.superEnabled then { handled := false, reply := "", cfg := cfg, dss := dss }
  else
    let keyword := strTrim (orS (cfg.superKeyword.getD ("")) (orS env.superKey ("#admin")))
    if ¬ strContains text keyword then { handled := false, reply := "", cfg := cfg, dss := dss }
    else
      match reAdminSearch keyword.toList text.toList with
      | none =>
        { handled := true,
          reply := ("🔒 Modo admin: formato inválido. Usá: `#admin <password> <comandos>`"),
          cfg := cfg, dss := dss }
      | some pr =>
        if ¬ passwordGate env.verify (cfg.superPasswordHash.getD ("")) env.superPass pr.1 then
          { handled := true, reply := ("❌ Password incorrecto o no configurado."),
            cfg := cfg, dss := dss }
        else if ¬ isAllowedNumber env.superNums sender (cfg.superAllowList.getD []) then
          { handled := true, reply := ("❌ Este número no está habilitado para admin."),
            cfg := cfg, dss := dss }
        else
          let cmds := (((splitOnPred (fun c => c = ';' ∨ c = '\n') pr.2.toList).map
            (fun l => strTrim (String.mk l))).filter (fun c => c ≠ ""))
          let st := cmds.foldl (execCmd brandId)
            { cfg := cfg, dss := dss, nextId := nextId, changed := [], outLines := [] }
          let summary :=
            (if st.changed ≠ [] then ("✅ Cambios: ") ++ joinSep (", ") st.changed ++ ("\n")
             else "")
            ++ joinSep ("\n") st.outLines
          let summary :=
            if summary = "" then ("✅ Admin OK (sin cambios). Usá `help` para ver comandos.")
            else summary
          { handled := true, reply := summary, cfg := st.cfg, dss := st.dss }

/-! ## Conversation metadata & board — `src/db.py`, `src/routers/channels.py` -/

/-- A `WAChatMeta` row (`db.py` lines 122-136); `tags_json` is carried in
decoded form (a JSON string list). -/
structure WAChatMetaRec where
  brandId : Nat
  jid : String
  title : Option String := none
  color : Option String := none
  column : String := ("inbox")
  priority : Int := 0
  interest : Int := 0
  pinned : Bool := false
  archived : Bool := false
  tags : List String := []
  notes : Option String := none
deriving Repr, DecidableEq

/-- The `ChatMetaIn` request body of `POST /chat/meta` (lines 391-402);
`priority`/`interest` are arbitrary caller-supplied integers. -/
structure ChatMetaIn where
  brandId : Nat
  jid : String
  title : Option String := none
  color : Option String := none
  column : Option String := none
  priority : Option Int := none
  interest : Option Int := none
  pinned : Option Bool := none
  archived : Option Bool := none
  tags : Option (List String) := none
  notes : Option String := none
deriving Repr, DecidableEq

/-- Lexicographic `≤` on char lists (Python string comparison, used by
`sorted(...)`). -/
def charsLe : List Char → List Char → Bool
  | [], _ => true
  | _ :: _, [] => false
  | a :: as_, b :: bs => if a = b then charsLe as_ bs else decide (a < b)

def strLe (a b : String) : Bool :=
  charsLe a.toList b.toList

/-- Stable insertion of `x` into `l` before the first element `y` with
`le x y` (used to model the stable Python `sort`/`sorted`). -/
def insertLe (le : α → α → Bool) (x : α) : List α → List α
  | [] => [x]
  | y :: ys => if le x y then x :: y :: ys else y :: insertLe le x ys

/-- Stable sort by the boolean relation `le` (insertion sort). -/
def sortLe (le : α → α → Bool) (l : List α) : List α :=
  l.foldr (insertLe le) []

/-- `if payload.title is not None: meta.title = (payload.title or "").strip()` -/
def applyTitle (p : ChatMetaIn) (meta : WAChatMetaRec) : WAChatMetaRec :=
  match p.title with
  | some t => { meta with title := some (strTrim (orS t (""))) }
  | none => meta

/-- `meta.color = (payload.color or "").strip() or None` -/
def applyColor (p : ChatMetaIn) (meta : WAChatMetaRec) : WAChatMetaRec :=
  match p.color with
  | some c => { meta with color := if strTrim (orS c ("")) = "" then none
                                   else some (strTrim (orS c (""))) }
  | none => meta

/-- `meta.column = (payload.column or "inbox").strip().lower()` -/
def applyColumn (p : ChatMetaIn) (meta : WAChatMetaRec) : WAChatMetaRec :=
  match p.column with
  | some c => { meta with column := strLower (strTrim (orS c ("inbox"))) }
  | none => meta

/-- `meta.priority = max(0, min(3, int(payload.priority)))` -/
def applyPriority (p : ChatMetaIn) (meta : WAChatMetaRec) : WAChatMetaRec :=
  match p.priority with
  | some v => { meta with priority := max 0 (min 3 v) }
  | none => meta

/-- `meta.interest = max(0, min(3, int(payload.interest)))` -/
def applyInterest (p : ChatMetaIn) (meta : WAChatMetaRec) : WAChatMetaRec :=
  match p.interest with
  | some v => { meta with interest := max 0 (min 3 v) }
  | none => meta

def applyPinned (p : ChatMetaIn) (meta : WAChatMetaRec) : WAChatMetaRec :=
  match p.pinned with
  | some b => { meta with pinned := b }
  | none => meta

def applyArchived (p : ChatMetaIn) (meta : WAChatMetaRec) : WAChatMetaRec :=
  match p.archived with
  | some b => { meta with archived := b }
  | none => meta

/-- `meta.tags_json = json.dumps(sorted(set(clean)))` with
`clean = [t.strip() for t in payload.tags if isinstance(t, str) and t.strip()]`. -/
def applyTags (p : ChatMetaIn) (meta : WAChatMetaRec) : WAChatMetaRec :=
  match p.tags with
  | some ts =>
    let clean := ts.filterMap (fun t => if strTrim t = "" then none else some (strTrim t))
    { meta with tags := sortLe strLe clean.eraseDups }
  | none => meta

def applyNotes (p : ChatMetaIn) (meta : WAChatMetaRec) : WAChatMetaRec :=
  match p.notes with
  | some n => { meta with notes := some n }
  | none => meta

/-- `wa_chat_meta` (`channels.py` lines 418-448): apply the request to the
existing row (or a freshly defaulted one, lines 426-428), each `apply…`
step modelling one `if payload.X is not None` statement; `none` is the
`400 jid inválido` rejection (in fact unreachable, since `_canonical_jid`
always appends the domain suffix). -/
def waChatMetaUpdate (old : Option WAChatMetaRec) (p : ChatMetaIn) :
    Option WAChatMetaRec :=
  let jid := canonicalJid p.jid
  if jid = "" then none
  else
    some (applyNotes p (applyTags p (applyArchived p (applyPinned p
      (applyInterest p (applyPriority p (applyColumn p (applyColor p
        (applyTitle p (old.getD { brandId := p.brandId, jid := jid }))))))))))

/-- The per-conversation "latest message" snapshot built by `wa_board`
(lines 663-679). -/
structure Snap where
  jid : String
  number : String
  lastMessageText : Option String
  lastMessageAt : Nat
  unread : Nat
  ts : Nat
deriving Repr, DecidableEq

/-- Insert-or-replace into an insertion-ordered association list
(a Python dict keyed by jid). -/
def dictSet (k : String) (v : β) : List (String × β) → List (String × β)
  | [] => [(k, v)]
  | (k0, v0) :: t => if k0 = k then (k, v) :: t else (k0, v0) :: dictSet k v t

def dictGet (m : List (String × β)) (k : String) : Option β :=
  (m.find? (fun p => p.1 = k)).map (fun p => p.2)

/-- A `WAMessage` row as read back for the board (jid, optional text,
optional timestamp). -/
structure WRow where
  brandId : Nat
  jid : String
  fromMe : Bool
  text : Option String
  ts : Option Nat
deriving Repr, DecidableEq

/-- One iteration of the `last_by_jid` loop (lines 665-679): keep the
snapshot with the strictly greatest timestamp (`ts or 0`) per canonical
jid. -/
def lastByJidStep (m : List (String × Snap)) (r : WRow) : List (String × Snap) :=
  let jid := canonicalJid r.jid
  if jid = "" then m
  else
    let tsv := r.ts.getD 0
    match dictGet m jid with
    | some cur =>
      if cur.ts < tsv then
        dictSet jid { jid := jid, number := numberFromJid jid, lastMessageText := r.text,
                      lastMessageAt := tsv, unread := 0, ts := tsv } m
      else m
    | none =>
      dictSet jid { jid := jid, number := numberFromJid jid, lastMessageText := r.text,
                    lastMessageAt := tsv, unread := 0, ts := tsv } m

/-- `last_by_jid` reduction (lines 664-679): one snapshot per canonical
jid. -/
def lastByJid (rows : List WRow) : List (String × Snap) :=
  rows.foldl lastByJidStep []

/-- `meta_map` (line 682): jid-keyed dict over the meta rows of the tenant
(later rows overwrite earlier ones, as in the dict comprehension). -/
def metaMapOf (metas : List WAChatMetaRec) : List (String × WAChatMetaRec) :=
  metas.foldl (fun m r => dictSet (canonicalJid r.jid) r m) []

/-- `_match_search` (lines 684-694): case-insensitive substring match of
the query against number, title and tags. -/
def matchSearch (q : Option String) (number : String) (meta : Option WAChatMetaRec) : Bool :=
  match q with
  | none => true
  | some qs =>
    if qs = "" then true
    else
      let term := strTrim (strLower qs)
      let fields := [number, (match meta with | some m => m.title.getD ("") | none => "")]
        ++ (match meta with | some m => m.tags | none => [])
      strContains (strLower (joinSep (" ") fields)) term

/-- One enriched board card (lines 703-718). -/
structure BoardItem where
  jid : String
  number : String
  name : String
  unread : Nat
  lastMessageText : Option String
  lastMessageAt : Nat
  column : String
  priority : Int
  interest : Int
  color : Option String
  pinned : Bool
  archived : Bool
  tags : List String
  notes : Option String
deriving Repr, DecidableEq

/-- The enrichment of one snapshot (loop body of lines 697-718): `none`
when the conversation is filtered out (archived, or search miss). -/
def enrichOne (metaMap : List (String × WAChatMetaRec)) (showArchived : Bool)
    (q : Option String) (e : String × Snap) : Option BoardItem :=
  let m := dictGet metaMap e.1
  if (match m with | some mm => mm.archived | none => false) && ! showArchived then none
  else if ¬ matchSearch q e.2.number m then none
  else
    some
      { jid := e.2.jid
        number := e.2.number
        name := (match m with
                 | some mm => match mm.title with
                   | some t => if t = "" then e.2.number else t
                   | none => e.2.number
                 | none => e.2.number)
        unread := e.2.unread
        lastMessageText := e.2.lastMessageText
        lastMessageAt := e.2.lastMessageAt
        column := (match m with | some mm => mm.column | none => ("inbox"))
        priority := (match m with | some mm => mm.priority | none => 0)
        interest := (match m with | some mm => mm.interest | none => 0)
        color := (match m with | some mm => mm.color | none => none)
        pinned := (match m with | some mm => mm.pinned | none => false)
        archived := (match m with | some mm => mm.archived | none => false)
        tags := (match m with | some mm => mm.tags | none => [])
        notes := (match m with | some mm => mm.notes | none => none) }

/-- The sort key of line 720: ascending `(not pinned, -unread, -lastAt)` —
pinned first, then more unread, then more recent. -/
def boardLe (a b : BoardItem) : Bool :=
  decide ((!a.pinned).toNat < (!b.pinned).toNat)
  || (decide ((!a.pinned).toNat = (!b.pinned).toNat)
      && (decide (b.unread < a.unread)
          || (decide (a.unread = b.unread) && decide (b.lastMessageAt ≤ a.lastMessageAt))))

/-- The sorted `enriched` list of `wa_board` (lines 696-724): snapshot,
left-join with meta, filter, sort. -/
def boardEnriched (brandId : Nat) (rows : List WRow) (metas : List WAChatMetaRec)
    (showArchived : Bool) (q : Option String) : List BoardItem :=
  let snaps := lastByJid (rows.filter (fun r => r.brandId = brandId))
  let metaMap := metaMapOf (metas.filter (fun m => m.brandId = brandId))
  sortLe boardLe (snaps.filterMap (enrichOne metaMap showArchived q))

/-- Python `str.capitalize()`: first char upper-cased, rest lower-cased. -/
def strCapitalize (s : String) : String :=
  match s.toList with
  | [] => ""
  | c :: t => String.mk (c.toUpper :: t.map Char.toLower)

/-- A board bucket: key, display title, color and the chats appended to
it, in order. -/
structure BoardCol where
  key : String
  title : String
  color : Option String
  chats : List BoardItem
deriving Repr, DecidableEq

/-- Append `it` to the bucket `key`, creating it at the end on first use
(the `ensure_col` + `columns[key]["chats"].append` of lines 726-735;
title and color are fixed by the bucket-creating item). -/
def addToCol (key title : String) (color : Option String) (it : BoardItem) :
    List BoardCol → List BoardCol
  | [] => [{ key := key, title := title, color := color, chats := [it] }]
  | c :: t => if c.key = key then { c with chats := c.chats ++ [it] } :: t
              else c :: addToCol key title color it t

/-- Bucket ordering of lines 761-762: "important" keys (`inbox`, `p3`,
`hot`) first, then alphabetically. -/
def colKeyLe (a b : String) : Bool :=
  let ia : Nat := if a = ("inbox") ∨ a = ("p3") ∨ a = ("hot") then 0 else 1
  let ib : Nat := if b = ("inbox") ∨ b = ("p3") ∨ b = ("hot") then 0 else 1
  decide (ia < ib) || (ia = ib && strLe a b)

/-- `wa_board` with `group="column"` (lines 731-735 and 761-769), the
grouping mode the claims exercise: bucket each enriched card under its
column name (empty name falls back to `inbox`), then order the buckets. -/
def waBoardColumns (brandId : Nat) (rows : List WRow) (metas : List WAChatMetaRec)
    (showArchived : Bool) (q : Option String) : List BoardCol :=
  let enriched := boardEnriched brandId rows metas showArchived q
  let cols := enriched.foldl
    (fun cs it =>
      addToCol (orS it.column ("inbox")) (strCapitalize (orS it.column ("inbox")))
        it.color it cs) []
  sortLe (fun a b => colKeyLe a.key b.key) cols

/-! ## Shared lemmas about the insertion sort and dict helpers -/

lemma mem_insertLe {le : α → α → Bool} {x a : α} :
    ∀ {l : List α}, a ∈ insertLe le x l → a = x ∨ a ∈ l := by
  intro l
  induction l with
  | nil => intro h; simpa [insertLe] using h
  | cons y ys ih =>
    intro h
    by_cases hxy : le x y = true
    · simp [insertLe, hxy] at h
      rcases h with h | h | h
      · exact Or.inl h
      · exact Or.inr (by simp [h])
      · exact Or.inr (by simp [h])
    · simp [insertLe, hxy] at h
      rcases h with h | h
      · exact Or.inr (by simp [h])
      · rcases ih h with h | h
        · exact Or.inl h
        · exact Or.inr (by simp [h])

lemma mem_sortLe {le : α → α → Bool} {a : α} :
    ∀ {l : List α}, a ∈ sortLe le l → a ∈ l := by
  intro l
  induction l with
  | nil => intro h; simp [sortLe] at h
  | cons y ys ih =>
    intro h
    have h' : a ∈ insertLe le y (sortLe le ys) := h
    rcases mem_insertLe h' with h1 | h1
    · simp [h1]
    · exact List.mem_cons_of_mem _ (ih h1)

lemma insertLe_pairwise {le : α → α → Bool}
    (htrans : ∀ a b c, le a b = true → le b c = true → le a c = true)
    (htot : ∀ a b, le a b = true ∨ le b a = true) (x : α) :
    ∀ {l : List α}, l.Pairwise (fun a b => le a b = true) →
      (insertLe le x l).Pairwise (fun a b => le a b = true) := by
  intro l
  induction l with
  | nil => intro _; simp [insertLe]
  | cons y ys ih =>
    intro hp
    rcases List.pairwise_cons.mp hp with ⟨hy, hys⟩
    by_cases hxy : le x y = true
    · rw [insertLe, if_pos hxy]
      refine List.pairwise_cons.mpr ⟨?_, hp⟩
      intro b hb
      rcases List.mem_cons.mp hb with hb | hb
      · exact hb ▸ hxy
      · exact htrans x y b hxy (hy b hb)
    · rw [insertLe, if_neg hxy]
      refine List.pairwise_cons.mpr ⟨?_, ih hys⟩
      intro b hb
      rcases mem_insertLe hb with hb | hb
      · rcases htot x y with h | h
        · exact absurd h hxy
        · rw [hb]; exact h
      · exact hy b hb

lemma sortLe_pairwise {le : α → α → Bool}
    (htrans : ∀ a b c, le a b = true → le b c = true → le a c = true)
    (htot : ∀ a b, le a b = true ∨ le b a = true) :
    ∀ (l : List α), (sortLe le l).Pairwise (fun a b => le a b = true) := by
  intro l
  induction l with
  | nil => simp [sortLe]
  | cons y ys ih => exact insertLe_pairwise htrans htot y ih

/-! ## Claim C2 — `ensure_started` failure semantics -/

/-- C2 (amended): `ensure_started` returns a failure exactly when the
create step was attempted (instance absent) and failed, **or** when the
connect step failed — not only when both fail; the webhook-registration
result of the webhook sub-step never influences the returned error or status. -/
theorem claim_C2 (p : ProviderBehavior) (url : Option String) :
    ((ensureStarted p url).error ≠ none
      ↔ ((p.instanceExists = false ∧ okS p.createResult.status = false)
          ∨ ((p.instanceExists = true ∨ okS p.createResult.status = true)
              ∧ okS p.connectResult.status = false)))
    ∧ ∀ w, (ensureStarted { p with webhookResult := w } url).error
             = (ensureStarted p url).error
        ∧ (ensureStarted { p with webhookResult := w } url).httpStatus
             = (ensureStarted p url).httpStatus := by
  constructor
  · cases he : p.instanceExists <;>
      cases hc : okS p.createResult.status <;>
      cases hk : okS p.connectResult.status <;>
      simp [ensureStarted, he, hc, hk]
  · intro w
    cases he : p.instanceExists <;>
      cases hc : okS p.createResult.status <;>
      cases hk : okS p.connectResult.status <;>
      simp [ensureStarted, he, hc, hk]

/-- Concrete run refuting C2 as stated: the instance is absent, the create
step **succeeds** (HTTP 201), only the connect step fails (HTTP 500) — and
`ensure_started` nevertheless returns a failure result, so failure does
not require both steps to fail. -/
theorem claim_C2_counterexample :
    okS ({ instanceExists := false,
           createResult := { status := 201, body := ("created") },
           webhookResult := { status := 200, body := ("ok") },
           connectResult := { status := 500, body := ("boom") } :
           ProviderBehavior }).createResult.status = true
    ∧ (ensureStarted
        { instanceExists := false,
          createResult := { status := 201, body := ("created") },
          webhookResult := { status := 200, body := ("ok") },
          connectResult := { status := 500, body := ("boom") } }
        (some ("http://example/webhook"))).error = some ("connect_failed") := by
  decide

/-- C2 witness: the amended equivalence instantiated on a run where only
the webhook sub-step fails — no failure is reported. -/
theorem claim_C2_witness :
    ¬ ((ensureStarted
        { instanceExists := true,
          createResult := { status := 404, body := ("nf") },
          webhookResult := { status := 500, body := ("boom") },
          connectResult := { status := 200, body := ("ok") } }
        (some ("http://example/webhook"))).error ≠ none) := by
  have h := (claim_C2
    { instanceExists := true,
      createResult := { status := 404, body := ("nf") },
      webhookResult := { status := 500, body := ("boom") },
      connectResult := { status := 200, body := ("ok") } }
    (some ("http://example/webhook"))).1
  intro hne
  rcases h.mp hne with ⟨h1, _⟩ | ⟨_, h2⟩
  · exact absurd h1 (by decide)
  · exact absurd h2 (by decide)

/-! ## Claim C4 — candidate-exhaustion results of the provider adapter -/

/-- C4 (amended): on exhaustion, the auth-header axis (`_request`) and the
webhook-registration candidate list (`set_webhook`) do return the last
attempted result, but the chat-listing candidate list (`list_chats`)
returns the fixed generic `500 / "No endpoint matched"` result instead of
the status and body of the last attempt. -/
theorem claim_C4 :
    (∀ (rs : List EvoResp) (r : EvoResp) (start : EvoResp),
        (∀ x ∈ rs, x.status = 401 ∨ x.status = 403) →
        hdrLoop (rs ++ [r]) start = r)
    ∧ (∀ (prov : String → EvoResp) (inst : String),
        (∀ pa ∈ setWebhookPaths inst, okS (prov pa).status = false) →
        setWebhook prov inst = prov (("/instance/setWebhook")))
    ∧ (∀ (prov : String → EvoResp) (inst : String),
        (∀ pa ∈ listChatsPaths inst, okS (prov pa).status = false) →
        listChats prov inst = { status := 500, body := ("No endpoint matched") }) := by
  refine ⟨?_, ?_, ?_⟩
  · intro rs
    induction rs with
    | nil =>
      intro r start _
      have : r.status ≠ 401 ∧ r.status ≠ 403 ∨ ¬ (r.status ≠ 401 ∧ r.status ≠ 403) :=
        Classical.em _
      rcases this with h | h <;> simp [hdrLoop, h]
    | cons a rs ih =>
      intro r start hall
      have ha := hall a (by simp)
      have : ¬ (a.status ≠ 401 ∧ a.status ≠ 403) := by
        rcases ha with h | h <;> simp [h]
      simp only [List.cons_append, hdrLoop, if_neg this]
      exact ih r a (fun x hx => hall x (by simp [hx]))
  · intro prov inst hall
    have h1 := hall (("/instance/webhook/set")) (by simp [setWebhookPaths])
    have h2 := hall ((("/instance/setWebhook/") ++ inst)) (by simp [setWebhookPaths])
    have h3 := hall (("/instance/setWebhook")) (by simp [setWebhookPaths])
    simp [setWebhook, setWebhookPaths, probeLast, h1, h2, h3]
  · intro prov inst hall
    have hfind : ((listChatsPaths inst).map prov).find? (fun r => okS r.status) = none := by
      rw [List.find?_eq_none]
      intro x hx
      rcases List.mem_map.mp hx with ⟨pa, hpa, hco⟩
      rw [← hco]
      simp [hall pa hpa]
    simp [listChats, hfind]

/-- Concrete run refuting C4 as stated: every `list_chats` candidate
returns `404 / "nf"`, yet the adapter answers with the generic
`500 / "No endpoint matched"` — not with the last attempted result. -/
theorem claim_C4_counterexample :
    listChats (fun _ => { status := 404, body := ("nf") }) ("brand_1")
      = { status := 500, body := ("No endpoint matched") }
    ∧ listChats (fun _ => { status := 404, body := ("nf") }) ("brand_1")
      ≠ (fun (_ : String) => ({ status := 404, body := ("nf") } : EvoResp))
          (("/chat/all")) := by
  decide

/-- C4 witness: the three exhaustion facts applied to concrete runs. -/
theorem claim_C4_witness :
    hdrLoop ([{ status := 401, body := ("a") }, { status := 403, body := ("b") }]
        ++ [{ status := 403, body := ("c") }]) { status := 599, body := ("request_failed") }
      = { status := 403, body := ("c") }
    ∧ setWebhook (fun _ => { status := 404, body := ("nf") }) ("brand_1")
      = { status := 404, body := ("nf") }
    ∧ listChats (fun _ => { status := 404, body := ("nf") }) ("brand_2")
      = { status := 500, body := ("No endpoint matched") } := by
  refine ⟨?_, ?_, ?_⟩
  · exact claim_C4.1 _ _ _ (by decide)
  · exact claim_C4.2.1 (fun _ => { status := 404, body := ("nf") }) ("brand_1")
      (fun pa _ => rfl)
  · exact claim_C4.2.2 (fun _ => { status := 404, body := ("nf") }) ("brand_2")
      (fun pa _ => rfl)

/-! ## Claim C5 — webhook GET liveness probe -/

/-- C5 (amended): a GET on the webhook path carrying the **correct** token
is always answered with the liveness response and persists nothing, for
any payload; an incorrect token is rejected (403) even on GET, because the
token check precedes the method check. -/
theorem claim_C5 (tok : String) (instQ : Option String) (brandIdQs : Option Nat)
    (pinst : Option String) (events : List WaEvent) (now : Nat) :
    waWebhook tok Method.GET tok instQ brandIdQs pinst events now = WebhookResp.ping
    ∧ savedOf (waWebhook tok Method.GET tok instQ brandIdQs pinst events now) = [] := by
  constructor <;> simp [waWebhook, savedOf]

/-- Concrete run refuting C5 as stated ("for any token"): a GET with a
wrong token is answered with a 403 rejection, not a successful liveness
response. -/
theorem claim_C5_counterexample :
    waWebhook ("evolution") Method.GET ("bad") none none none [] 0
      = WebhookResp.err 403
    ∧ waWebhook ("evolution") Method.GET ("bad") none none none [] 0
      ≠ WebhookResp.ping := by
  decide

/-! ## Claim C7 — empty admin allow-list admits every sender -/

/-- C7: with an empty tenant allow-list and no environment-level
privileged numbers, `_is_allowed_number` accepts every sender. -/
theorem claim_C7 (sender : String) (superNums allow : List String)
    (hn : superNums = []) (ha : allow = []) :
    isAllowedNumber superNums sender allow = true := by
  subst hn; subst ha
  simp [isAllowedNumber]

/-- C7 witness: an arbitrary sender passes the gate when both lists are
empty. -/
theorem claim_C7_witness :
    isAllowedNumber [] ("5493519999999@s.whatsapp.net") [] = true :=
  claim_C7 ("5493519999999@s.whatsapp.net") [] [] rfl rfl

/-! ## Claim C1 — outbound-flagged (fromMe) webhook candidates -/

/-- C1 (amended): an outbound-flagged candidate is skipped entirely by both
webhook handlers — `channels.wa_webhook` persists nothing for it (so it is
**not** kept for audit) and `wa_admin._extract_incoming_evolution` drops it
from the incoming list, so it is never routed and triggers zero outbound
(auto-ACK) sends. -/
theorem claim_C1 (brandId now : Nat) (m : WMsg) :
    (m.keyFromMe = some true → processMsg brandId now m = none)
    ∧ ((m.fromMeTop = some true ∨ m.keyFromMe = some true) →
        extractOneIncoming m = none) := by
  constructor
  · intro h
    cases hx : extractText m <;> simp [processMsg, h, hx]
  · intro h
    rcases h with h | h <;> simp [extractOneIncoming, h]

/-- An echoed tenant reply: `fromMe = true`, with a resolvable jid and
non-empty text. -/
def msgFromMe : WMsg :=
  { keyFromMe := some true,
    keyRemoteJid := some ("5493510000000@s.whatsapp.net"),
    message := some { conversation := some ("hola") } }

/-- Concrete run refuting C1 as stated: a webhook delivery whose only
candidate is an outbound-flagged text message persists **nothing**
(`saved = []`), although the claim asserts such candidates are persisted
for audit. -/
theorem claim_C1_counterexample :
    waWebhook ("evolution") Method.POST ("evolution") (some ("brand_1")) none none
        [WaEvent.wrapped (some ("brand_1")) [msgFromMe]] 100
      = WebhookResp.processed []
    ∧ msgFromMe.keyFromMe = some true
    ∧ extractText msgFromMe = some ("hola") := by
  decide

/-- C1 witness: the amended statement at the concrete echoed reply. -/
theorem claim_C1_witness :
    processMsg 1 100 msgFromMe = none ∧ extractOneIncoming msgFromMe = none :=
  ⟨(claim_C1 1 100 msgFromMe).1 rfl, (claim_C1 1 100 msgFromMe).2 (Or.inr rfl)⟩

/-! ## Claim C8 — missing provider timestamp -/

/-- C8: a candidate without `messageTimestamp`/`timestamp` fields is given
the ingestion time `now` (hence a timestamp no earlier than process start,
`start ≤ now`), and whether the candidate is persisted does not depend on
the timestamp being present: adding one changes nothing but the stored
`ts`. -/
lemma isSome_ite_ite {α : Type} (c g : Prop) [Decidable c] [Decidable g] (x y : α) :
    (if c then (none : Option α) else if g then some x else none).isSome
      = (if c then (none : Option α) else if g then some y else none).isSome := by
  by_cases hc : c <;> by_cases hg : g <;> simp [hc, hg]

theorem claim_C8 (brandId now start k : Nat) (m : WMsg)
    (hsn : start ≤ now) (h1 : m.messageTimestamp = none) (h2 : m.timestamp = none) :
    (∀ s, processMsg brandId now m = some s → s.ts = now ∧ start ≤ s.ts)
    ∧ (processMsg brandId now m).isSome
        = (processMsg brandId now { m with messageTimestamp := some k }).isSome := by
  rcases m with ⟨kf, kr, rj, jd, ci, ir, fm, nb, cv, ms, tx, bd, mts, tsp⟩
  obtain rfl : mts = none := h1
  obtain rfl : tsp = none := h2
  constructor
  · intro s hs'
    cases hx : extractText ⟨kf, kr, rj, jd, ci, ir, fm, nb, cv, ms, tx, bd, none, none⟩ with
    | none => rw [processMsg, hx] at hs'; simp at hs'
    | some text =>
      rw [processMsg, hx] at hs'
      simp only [firstTruthyNat] at hs'
      repeat' split at hs'
      all_goals
        first
          | (injection hs' with h3; subst h3; exact ⟨rfl, hsn⟩)
          | exact absurd hs' (by simp)
  · cases hx : extractText ⟨kf, kr, rj, jd, ci, ir, fm, nb, cv, ms, tx, bd, none, none⟩ with
    | none =>
      have hx' : extractText ⟨kf, kr, rj, jd, ci, ir, fm, nb, cv, ms, tx, bd, some k, none⟩
          = none := hx
      rw [processMsg, processMsg, hx, hx']
    | some text =>
      have hx' : extractText ⟨kf, kr, rj, jd, ci, ir, fm, nb, cv, ms, tx, bd, some k, none⟩
          = some text := hx
      rw [processMsg, processMsg, hx, hx']
      exact isSome_ite_ite _ _ _ _

/-- A raw candidate with text and jid but no timestamp fields. -/
def msgNoTs : WMsg :=
  { keyRemoteJid := some ("549351000@s.whatsapp.net"),
    message := some { conversation := some ("hola") } }

/-- C8 witness: the theorem at a concrete timestamp-less candidate, whose
persisted row indeed carries the ingestion time 100. -/
theorem claim_C8_witness :
    ((∀ s, processMsg 1 100 msgNoTs = some s → s.ts = 100 ∧ 50 ≤ s.ts)
      ∧ (processMsg 1 100 msgNoTs).isSome
          = (processMsg 1 100 { msgNoTs with messageTimestamp := some 7 }).isSome)
    ∧ processMsg 1 100 msgNoTs
        = some { brandId := 1, jid := ("54351000@s.whatsapp.net"), fromMe := false,
                 text := ("hola"), ts := 100 } :=
  ⟨claim_C8 1 100 50 7 msgNoTs (by decide) rfl rfl, by decide⟩

/-! ## Claim C3 — digest vs. fallback password check -/

/-- C3 (amended): the two password checks are **exclusive**, not
cumulative: when a digest is stored it is the only check (the
environment fallback secret is ignored entirely), and the fallback
equality check applies only when no digest is stored; whichever single
check applies, its success is sufficient. -/
theorem claim_C3 (verify : String → String → Bool) (hsh sp sp2 pwd : String) :
    (hsh ≠ "" → passwordGate verify hsh sp pwd = passwordGate verify hsh sp2 pwd
                ∧ passwordGate verify hsh sp pwd = verify pwd hsh)
    ∧ (hsh = "" → sp ≠ "" → passwordGate verify hsh sp pwd = (pwd == sp)) := by
  constructor
  · intro hne
    rw [passwordGate, if_pos hne, passwordGate, if_pos hne]
    exact ⟨rfl, rfl⟩
  · intro he hs
    rw [passwordGate, if_neg (not_not_intro he), if_pos hs]

/-- Environment for the C3 counterexample: the fallback secret is
`legacy`, and `verify` models a digest that was stored for some *other*
password (no input verifies against it). -/
def envC3 : AdminEnv :=
  { superPass := ("legacy"), superNums := [], superKey := ("#admin"),
    verify := fun _ _ => false }

def cfgC3 : WACfg := { superPasswordHash := some ("pbkdf2stored") }

/-- Concrete run refuting C3 as stated: the supplied password equals the
environment fallback secret (`legacy`), yet with a digest stored the
fallback is never consulted (`elif`) and `try_admin_command` rejects the
command at the password gate. -/
theorem claim_C3_counterexample :
    (("legacy") == envC3.superPass) = true
    ∧ tryAdminCommand envC3 1 cfgC3 [] 1 ("5493510000000@s.whatsapp.net")
        ("#admin legacy set agent=reservas")
      = { handled := true, reply := ("❌ Password incorrecto o no configurado."),
          cfg := cfgC3, dss := [] } := by
  constructor
  · decide
  · decide

/-- C3 witness: the amended statement at concrete inputs — with a digest
stored the fallback value is irrelevant; with no digest the fallback
equality decides. -/
theorem claim_C3_witness :
    (passwordGate (fun _ _ => false) ("stored") ("legacy") ("legacy")
        = passwordGate (fun _ _ => false) ("stored") ("other") ("legacy")
      ∧ passwordGate (fun _ _ => false) ("stored") ("legacy") ("legacy")
        = (fun (_ _ : String) => false) ("legacy") ("stored"))
    ∧ passwordGate (fun _ _ => false) ("") ("legacy") ("legacy")
        = (("legacy") == ("legacy")) :=
  ⟨(claim_C3 (fun _ _ => false) ("stored") ("legacy") ("other") ("legacy")).1 (by decide),
   (claim_C3 (fun _ _ => false) ("") ("legacy") ("other") ("legacy")).2 rfl (by decide)⟩

/-! ## Claim C6 — wrong admin password -/

/-- C6: with admin mode enabled, keyword `#admin` and a configured digest,
the message `#admin wrongpass set agent=reservas` with a non-verifying
password leaves the tenant configuration (in particular `agent_mode`) and
the datasources unchanged, reports `handled = true` and replies with the
rejection text; `try_admin_command` contains no agent-generation call, and
`handled = true` prevents any fallback agent reply. -/
theorem claim_C6 (env : AdminEnv) (brandId nextId : Nat) (dss : List DS)
    (sender h : String) (am : String) (mn : Option String) (tp : DecNum)
    (rm rjs : Option String) (al : Option (List String))
    (hne : h ≠ "") (hv : env.verify ("wrongpass") h = false) :
    tryAdminCommand env brandId
      { agentMode := am, modelName := mn, temperature := tp, rulesMd := rm,
        rulesJson := rjs, superEnabled := true, superKeyword := some ("#admin"),
        superAllowList := al, superPasswordHash := some h }
      dss nextId sender ("#admin wrongpass set agent=reservas")
      = { handled := true, reply := ("❌ Password incorrecto o no configurado."),
          cfg := { agentMode := am, modelName := mn, temperature := tp, rulesMd := rm,
                   rulesJson := rjs, superEnabled := true, superKeyword := some ("#admin"),
                   superAllowList := al, superPasswordHash := some h },
          dss := dss } := by
  have e0 : ¬ (("#admin wrongpass set agent=reservas") : String) = "" := by decide
  have e4 : strTrim (orS ("#admin") (orS env.superKey ("#admin"))) = ("#admin") := by
    rw [orS, if_neg (by decide)]
    decide
  have e2 : strContains ("#admin wrongpass set agent=reservas") ("#admin") = true := by
    decide
  have e3 : reAdminSearch ['#', 'a', 'd', 'm', 'i', 'n']
      ['#', 'a', 'd', 'm', 'i', 'n', ' ', 'w', 'r', 'o', 'n', 'g', 'p', 'a', 's', 's',
       ' ', 's', 'e', 't', ' ', 'a', 'g', 'e', 'n', 't', '=', 'r', 'e', 's', 'e', 'r',
       'v', 'a', 's']
      = some (("wrongpass"), ("set agent=reservas")) := by decide
  simp [tryAdminCommand, e0, e4, e2, e3, passwordGate, hne, hv]

def envC6 : AdminEnv :=
  { superPass := "", superNums := [], superKey := ("#admin"), verify := fun _ _ => false }

/-- C6 witness: the theorem at a concrete tenant with digest `H`. -/
theorem claim_C6_witness :
    tryAdminCommand envC6 1
      { agentMode := ("ventas"), modelName := none, temperature := { num := 2, scale := 1 },
        rulesMd := none, rulesJson := none, superEnabled := true,
        superKeyword := some ("#admin"), superAllowList := none,
        superPasswordHash := some ("H") }
      [] 1 ("5493510000000@s.whatsapp.net") ("#admin wrongpass set agent=reservas")
      = { handled := true, reply := ("❌ Password incorrecto o no configurado."),
          cfg := { agentMode := ("ventas"), modelName := none,
                   temperature := { num := 2, scale := 1 }, rulesMd := none,
                   rulesJson := none, superEnabled := true,
                   superKeyword := some ("#admin"), superAllowList := none,
                   superPasswordHash := some ("H") },
          dss := [] } :=
  claim_C6 envC6 1 1 [] ("5493510000000@s.whatsapp.net") ("H") ("ventas") none
    { num := 2, scale := 1 } none none none (by decide) rfl

/-! ## Claim C10 — priority/interest clamping invariant -/

/-- The stored-range invariant of the claim. -/
def metaRange (m : WAChatMetaRec) : Prop :=
  0 ≤ m.priority ∧ m.priority ≤ 3 ∧ 0 ≤ m.interest ∧ m.interest ≤ 3

lemma applyTitle_priority (p : ChatMetaIn) (m : WAChatMetaRec) :
    (applyTitle p m).priority = m.priority := by
  cases h : p.title <;> simp [applyTitle, h]

lemma applyColor_priority (p : ChatMetaIn) (m : WAChatMetaRec) :
    (applyColor p m).priority = m.priority := by
  cases h : p.color <;> simp [applyColor, h]

lemma applyColumn_priority (p : ChatMetaIn) (m : WAChatMetaRec) :
    (applyColumn p m).priority = m.priority := by
  cases h : p.column <;> simp [applyColumn, h]

lemma applyInterest_priority (p : ChatMetaIn) (m : WAChatMetaRec) :
    (applyInterest p m).priority = m.priority := by
  cases h : p.interest <;> simp [applyInterest, h]

lemma applyPinned_priority (p : ChatMetaIn) (m : WAChatMetaRec) :
    (applyPinned p m).priority = m.priority := by
  cases h : p.pinned <;> simp [applyPinned, h]

lemma applyArchived_priority (p : ChatMetaIn) (m : WAChatMetaRec) :
    (applyArchived p m).priority = m.priority := by
  cases h : p.archived <;> simp [applyArchived, h]

lemma applyTags_priority (p : ChatMetaIn) (m : WAChatMetaRec) :
    (applyTags p m).priority = m.priority := by
  cases h : p.tags <;> simp [applyTags, h]

lemma applyNotes_priority (p : ChatMetaIn) (m : WAChatMetaRec) :
    (applyNotes p m).priority = m.priority := by
  cases h : p.notes <;> simp [applyNotes, h]

lemma applyTitle_interest (p : ChatMetaIn) (m : WAChatMetaRec) :
    (applyTitle p m).interest = m.interest := by
  cases h : p.title <;> simp [applyTitle, h]

lemma applyColor_interest (p : ChatMetaIn) (m : WAChatMetaRec) :
    (applyColor p m).interest = m.interest := by
  cases h : p.color <;> simp [applyColor, h]

lemma applyColumn_interest (p : ChatMetaIn) (m : WAChatMetaRec) :
    (applyColumn p m).interest = m.interest := by
  cases h : p.column <;> simp [applyColumn, h]

lemma applyPriority_interest (p : ChatMetaIn) (m : WAChatMetaRec) :
    (applyPriority p m).interest = m.interest := by
  cases h : p.priority <;> simp [applyPriority, h]

lemma applyPinned_interest (p : ChatMetaIn) (m : WAChatMetaRec) :
    (applyPinned p m).interest = m.interest := by
  cases h : p.pinned <;> simp [applyPinned, h]

lemma applyArchived_interest (p : ChatMetaIn) (m : WAChatMetaRec) :
    (applyArchived p m).interest = m.interest := by
  cases h : p.archived <;> simp [applyArchived, h]

lemma applyTags_interest (p : ChatMetaIn) (m : WAChatMetaRec) :
    (applyTags p m).interest = m.interest := by
  cases h : p.tags <;> simp [applyTags, h]

lemma applyNotes_interest (p : ChatMetaIn) (m : WAChatMetaRec) :
    (applyNotes p m).interest = m.interest := by
  cases h : p.notes <;> simp [applyNotes, h]

lemma applyPriority_priority (p : ChatMetaIn) (m : WAChatMetaRec) :
    (applyPriority p m).priority
      = (match p.priority with
         | some v => max 0 (min 3 v)
         | none => m.priority) := by
  cases h : p.priority <;> simp [applyPriority, h]

lemma applyInterest_interest (p : ChatMetaIn) (m : WAChatMetaRec) :
    (applyInterest p m).interest
      = (match p.interest with
         | some v => max 0 (min 3 v)
         | none => m.interest) := by
  cases h : p.interest <;> simp [applyInterest, h]

lemma canonicalJid_ne_empty (s : String) : canonicalJid s ≠ "" := by
  intro h
  rw [canonicalJid] at h
  have hd := congrArg String.data h
  rw [String.data_append] at hd
  simp at hd

/-- C10: after any `wa_chat_meta` update, the stored priority and interest
lie in `0..3`; when the caller supplies an integer it is clamped with
`max(0, min(3, v))`, for every integer — assuming the pre-existing row (if
any) already satisfied the invariant (rows are only created by this same
endpoint, starting from the in-range defaults). -/
theorem claim_C10 (old : Option WAChatMetaRec) (p : ChatMetaIn)
    (hold : ∀ o, old = some o → metaRange o) :
    ∀ m, waChatMetaUpdate old p = some m →
      metaRange m
      ∧ (∀ v, p.priority = some v → m.priority = max 0 (min 3 v))
      ∧ (∀ v, p.interest = some v → m.interest = max 0 (min 3 v)) := by
  intro m hm
  rw [waChatMetaUpdate] at hm
  rw [if_neg (canonicalJid_ne_empty p.jid)] at hm
  injection hm with hm
  have hpri : m.priority
      = (match p.priority with
         | some v => max 0 (min 3 v)
         | none => (old.getD { brandId := p.brandId, jid := canonicalJid p.jid }).priority) := by
    rw [← hm]
    rw [applyNotes_priority, applyTags_priority, applyArchived_priority,
        applyPinned_priority, applyInterest_priority, applyPriority_priority,
        applyColumn_priority, applyColor_priority, applyTitle_priority]
  have hint : m.interest
      = (match p.interest with
         | some v => max 0 (min 3 v)
         | none => (old.getD { brandId := p.brandId, jid := canonicalJid p.jid }).interest) := by
    rw [← hm]
    rw [applyNotes_interest, applyTags_interest, applyArchived_interest,
        applyPinned_interest, applyInterest_interest, applyPriority_interest,
        applyColumn_interest, applyColor_interest, applyTitle_interest]
  have hbase : metaRange (old.getD { brandId := p.brandId, jid := canonicalJid p.jid }) := by
    cases ho : old with
    | none => simp [metaRange]
    | some o => simpa using hold o ho
  rcases hbase with ⟨b1, b2, b3, b4⟩
  refine ⟨⟨?_, ?_, ?_, ?_⟩, ?_, ?_⟩
  · rw [hpri]; cases hp : p.priority <;> simp <;> try omega
  · rw [hpri]; cases hp : p.priority <;> simp <;> try omega
  · rw [hint]; cases hi : p.interest <;> simp <;> try omega
  · rw [hint]; cases hi : p.interest <;> simp <;> try omega
  · intro v hv; rw [hpri, hv]
  · intro v hv; rw [hint, hv]

/-- An update request with out-of-range priority (99) and interest (−5). -/
def pC10 : ChatMetaIn :=
  { brandId := 1, jid := ("549"), priority := some 99, interest := some (-5) }

/-- C10 witness: the out-of-range inputs are clamped to 3 and 0. -/
theorem claim_C10_witness :
    metaRange { brandId := 1, jid := ("549@s.whatsapp.net"), priority := 3, interest := 0 }
    ∧ (waChatMetaUpdate none pC10).map (fun m => m.priority) = some 3
    ∧ (waChatMetaUpdate none pC10).map (fun m => m.interest) = some 0 := by
  have h := claim_C10 none pC10 (fun o ho => nomatch ho)
      { brandId := 1, jid := ("549@s.whatsapp.net"), priority := 3, interest := 0 }
      (by decide)
  refine ⟨h.1, ?_, ?_⟩
  · have := h.2.1 99 rfl
    decide
  · have := h.2.2 (-5) rfl
    decide

/-! ## Claim C9 — board defaults and pinned-first ordering -/

lemma boardLe_trans (a b c : BoardItem) :
    boardLe a b = true → boardLe b c = true → boardLe a c = true := by
  intro h1 h2
  simp only [boardLe, Bool.or_eq_true, Bool.and_eq_true, decide_eq_true_eq] at h1 h2 ⊢
  omega

lemma boardLe_total (a b : BoardItem) :
    boardLe a b = true ∨ boardLe b a = true := by
  simp only [boardLe, Bool.or_eq_true, Bool.and_eq_true, decide_eq_true_eq]
  omega

lemma boardLe_pinned (a b : BoardItem) :
    boardLe a b = true → a.pinned = false → b.pinned = false := by
  intro h ha
  cases hb : b.pinned
  · rfl
  · simp only [boardLe, Bool.or_eq_true, Bool.and_eq_true, decide_eq_true_eq] at h
    rw [ha, hb] at h
    simp at h

lemma mem_dictSet {β : Type} {k : String} {v : β} {p : String × β} :
    ∀ {m : List (String × β)}, p ∈ dictSet k v m → p = (k, v) ∨ p ∈ m := by
  intro m
  induction m with
  | nil => intro h; simp [dictSet] at h; exact Or.inl h
  | cons q t ih =>
    rcases q with ⟨k0, v0⟩
    intro h
    by_cases hk : k0 = k
    · rw [dictSet, if_pos hk] at h
      rcases List.mem_cons.mp h with h | h
      · exact Or.inl h
      · exact Or.inr (List.mem_cons_of_mem _ h)
    · rw [dictSet, if_neg hk] at h
      rcases List.mem_cons.mp h with h | h
      · exact Or.inr (by simp [h])
      · rcases ih h with h | h
        · exact Or.inl h
        · exact Or.inr (List.mem_cons_of_mem _ h)

lemma lastByJidStep_inv {m : List (String × Snap)} {r : WRow}
    (hm : ∀ q ∈ m, q.2.jid = q.1) :
    ∀ q ∈ lastByJidStep m r, q.2.jid = q.1 := by
  intro q hq
  simp only [lastByJidStep] at hq
  split at hq
  · exact hm q hq
  · split at hq
    · split at hq
      · rcases mem_dictSet hq with h | h
        · rw [h]
        · exact hm q h
      · exact hm q hq
    · rcases mem_dictSet hq with h | h
      · rw [h]
      · exact hm q h

lemma lastByJid_foldl_inv :
    ∀ (rows : List WRow) (acc : List (String × Snap)),
      (∀ q ∈ acc, q.2.jid = q.1) →
      ∀ q ∈ rows.foldl lastByJidStep acc, q.2.jid = q.1 := by
  intro rows
  induction rows with
  | nil => intro acc h q hq; exact h q hq
  | cons r rs ih =>
    intro acc h q hq
    rw [List.foldl_cons] at hq
    exact ih _ (lastByJidStep_inv h) q hq

lemma lastByJid_inv (rows : List WRow) :
    ∀ q ∈ lastByJid rows, q.2.jid = q.1 :=
  lastByJid_foldl_inv rows [] (by simp)

lemma enrichOne_jid {mm : List (String × WAChatMetaRec)} {sa : Bool} {q : Option String}
    {e : String × Snap} {it : BoardItem} (h : enrichOne mm sa q e = some it) :
    it.jid = e.2.jid
    ∧ it.column = (match dictGet mm e.1 with
                   | some mr => mr.column
                   | none => ("inbox"))
    ∧ it.color = (match dictGet mm e.1 with
                  | some mr => mr.color
                  | none => none) := by
  simp only [enrichOne] at h
  split at h
  · exact absurd h (by simp)
  · split at h
    · exact absurd h (by simp)
    · injection h with h
      rw [← h]
      exact ⟨rfl, rfl, rfl⟩

lemma addToCol_inbox_shape :
    ∀ (its : List BoardItem) (cs : List BoardCol),
      (∀ it ∈ its, it.column = ("inbox") ∧ it.color = none) →
      (cs = [] ∨ ∃ l, cs = [{ key := ("inbox"), title := ("Inbox"),
                              color := none, chats := l }]) →
      (its.foldl (fun cs it =>
          addToCol (orS it.column ("inbox")) (strCapitalize (orS it.column ("inbox")))
            it.color it cs) cs = []
        ∨ ∃ l, its.foldl (fun cs it =>
            addToCol (orS it.column ("inbox")) (strCapitalize (orS it.column ("inbox")))
              it.color it cs) cs
            = [{ key := ("inbox"), title := ("Inbox"), color := none, chats := l }]) := by
  intro its
  induction its with
  | nil =>
    intro cs _ hs
    simpa using hs
  | cons it its ih =>
    intro cs h hs
    rw [List.foldl_cons]
    apply ih _ (fun x hx => h x (List.mem_cons_of_mem _ hx))
    have hcol : orS it.column ("inbox") = ("inbox") := by
      rw [(h it (List.mem_cons_self _ _)).1, orS, if_neg (by decide)]
    rw [hcol, (h it (List.mem_cons_self _ _)).2]
    rcases hs with rfl | ⟨l, rfl⟩
    · exact Or.inr ⟨[it], by rw [show strCapitalize ("inbox") = ("Inbox") from rfl]; rfl⟩
    · exact Or.inr ⟨l ++ [it], by simp [addToCol]⟩

/-- C9: (i) an enriched conversation whose jid has no ConversationMeta
record defaults to column `inbox`; (ii) with no meta rows at all, the
column-grouped board is a single `inbox` bucket (or empty); (iii) in the
sorted board ordering, every pinned conversation precedes every unpinned
one, whatever the unread counts. -/
theorem claim_C9 (brandId : Nat) (rows : List WRow) (metas : List WAChatMetaRec)
    (showArchived : Bool) (q : Option String) :
    (∀ it ∈ boardEnriched brandId rows metas showArchived q,
        dictGet (metaMapOf (metas.filter (fun mr => mr.brandId = brandId))) it.jid = none →
        it.column = ("inbox"))
    ∧ (metas = [] →
        waBoardColumns brandId rows metas showArchived q = []
        ∨ ∃ l, waBoardColumns brandId rows metas showArchived q
            = [{ key := ("inbox"), title := ("Inbox"), color := none, chats := l }])
    ∧ (boardEnriched brandId rows metas showArchived q).Pairwise
        (fun a b => a.pinned = false → b.pinned = false)
    ∧ (∀ (its : List BoardItem),
        (sortLe boardLe its).Pairwise
          (fun a b => a.pinned = false → b.pinned = false)) := by
  have keyGen : ∀ (ms : List WAChatMetaRec),
      ∀ it ∈ boardEnriched brandId rows ms showArchived q,
        dictGet (metaMapOf (ms.filter (fun mr => mr.brandId = brandId))) it.jid = none →
        it.column = ("inbox") := by
    intro ms it hit hnone
    simp only [boardEnriched] at hit
    rcases List.mem_filterMap.mp (mem_sortLe hit) with ⟨e, he, henr⟩
    rcases enrichOne_jid henr with ⟨hjid, hcol, -⟩
    have he1 : e.1 = it.jid := by
      rw [hjid, lastByJid_inv _ e he]
    rw [he1] at hcol
    rw [hcol, hnone]
  refine ⟨keyGen metas, ?_, ?_, ?_⟩
  · intro hm0
    subst hm0
    have hall : ∀ it ∈ boardEnriched brandId rows [] showArchived q,
        it.column = ("inbox") ∧ it.color = none := by
      intro it hit
      refine ⟨keyGen [] it hit rfl, ?_⟩
      simp only [boardEnriched] at hit
      rcases List.mem_filterMap.mp (mem_sortLe hit) with ⟨e, he, henr⟩
      rcases enrichOne_jid henr with ⟨-, -, hclr⟩
      rw [hclr]
      have : dictGet (metaMapOf (List.filter (fun mr => mr.brandId = brandId) [])) e.1
          = none := rfl
      rw [this]
    have hshape := addToCol_inbox_shape
      (boardEnriched brandId rows [] showArchived q) [] hall (Or.inl rfl)
    rw [waBoardColumns]
    rcases hshape with hs | ⟨l, hs⟩
    · rw [hs]
      exact Or.inl rfl
    · rw [hs]
      exact Or.inr ⟨l, rfl⟩
  · have hp := sortLe_pairwise boardLe_trans boardLe_total
      ((lastByJid (rows.filter (fun r => r.brandId = brandId))).filterMap
        (enrichOne (metaMapOf (metas.filter (fun mr => mr.brandId = brandId)))
          showArchived q))
    exact hp.imp (fun hab => boardLe_pinned _ _ hab)
  · intro its
    exact (sortLe_pairwise boardLe_trans boardLe_total its).imp
      (fun hab => boardLe_pinned _ _ hab)

/-- Two conversations for one tenant, neither having any meta row. -/
def rows9 : List WRow :=
  [{ brandId := 1, jid := ("5491111111111@s.whatsapp.net"), fromMe := false,
     text := some ("hola"), ts := some 10 },
   { brandId := 1, jid := ("5492222222222@s.whatsapp.net"), fromMe := false,
     text := some ("chau"), ts := some 20 }]

/-- The enriched card of the second conversation of `rows9`. -/
def bItem9 : BoardItem :=
  { jid := ("542222222222@s.whatsapp.net"), number := ("542222222222"),
    name := ("542222222222"), unread := 0, lastMessageText := some ("chau"),
    lastMessageAt := 20, column := ("inbox"), priority := 0, interest := 0,
    color := none, pinned := false, archived := false, tags := [], notes := none }

/-- C9 witness: with no meta rows, the two conversations of `rows9` land
in a single `inbox` bucket, and the column of a meta-less card is `inbox`;
also the pinned-first ordering at a concrete pinned/unpinned pair with
unread counts 0 and 5. -/
theorem claim_C9_witness :
    (waBoardColumns 1 rows9 [] false none = []
      ∨ ∃ l, waBoardColumns 1 rows9 [] false none
          = [{ key := ("inbox"), title := ("Inbox"), color := none, chats := l }])
    ∧ bItem9.column = ("inbox")
    ∧ (sortLe boardLe
        [{ bItem9 with pinned := false, unread := 5 },
         { bItem9 with pinned := true, unread := 0 }]).Pairwise
        (fun a b => a.pinned = false → b.pinned = false) :=
  ⟨(claim_C9 1 rows9 [] false none).2.1 rfl,
   (claim_C9 1 rows9 [] false none).1 bItem9 (by decide) (by decide),
   (claim_C9 1 rows9 [] false none).2.2.2
     [{ bItem9 with pinned := false, unread := 5 },
      { bItem9 with pinned := true, unread := 0 }]⟩
